import Mathlib

/-!
Verification development for the token-tracking administrative dashboard
(streamlit_app.py). The definitions below are a shallow embedding of the
functions and button handlers of that file: pure data manipulation is
translated directly, the SQLite tables the handlers touch become lists of
rows, the session-scoped retry state becomes an explicit state record, and
the subprocess call becomes a function on the observable behavior of the
child process. Line references point into src/streamlit_app.py.
-/

namespace TokenTrackingDashboard

/-- Embedding of the Python string method startswith, as a character-list
prefix test. For valid strings this agrees with byte-level prefix testing. -/
def pyStartsWith (s pre : String) : Bool := pre.data.isPrefixOf s.data

/-- Embedding of the Python membership test for a single character in a
string. -/
def pyContainsChar (s : String) (c : Char) : Bool := s.data.contains c

/-- The single-quote character, written by code point to keep source lines
free of quote literals. -/
def squote : Char := Char.ofNat 39

/-! ## Database location resolution (get_database_path, lines 23 to 54) -/

/-- Lines 29 to 30 and 34 to 35: if the stripped path does not start with a
slash, a slash is prepended. -/
def ensureLeadingSlash (path : String) : String :=
  if pyStartsWith path "/" then path else "/" ++ path

/-- Lines 38 to 54: the fixed ordered probe list used when no usable
connection string is present: the two Docker paths, then the local path
under the script directory, then the default Docker path. The filesystem is
abstracted as an existence predicate, and the directory of the script as a
string. -/
def probeFallback (fileExists : String → Bool) (scriptDir : String) : String :=
  if fileExists "/app/backend/data/webui.db" then "/app/backend/data/webui.db"
  else if fileExists "/app/data/webui.db" then "/app/data/webui.db"
  else if fileExists (scriptDir ++ "/backend/data/webui.db") then
    scriptDir ++ "/backend/data/webui.db"
  else "/app/backend/data/webui.db"

/-- Lines 26 to 36: parsing of a present DATABASE_URL value. The Python
truthiness test on the environment value makes the empty string fall through
to the probe list. The slice with index 10 strips the length of the string
sqlite:/// and the slice with index 20 strips the length of the string
sqlite+sqlcipher:///. -/
def resolveDbUrl (dbUrl : String) (fileExists : String → Bool)
    (scriptDir : String) : String :=
  if dbUrl = "" then probeFallback fileExists scriptDir
  else if pyStartsWith dbUrl "sqlite:///" then ensureLeadingSlash (dbUrl.drop 10)
  else if pyStartsWith dbUrl "sqlite+sqlcipher:///" then
    ensureLeadingSlash (dbUrl.drop 20)
  else probeFallback fileExists scriptDir

/-- Lines 23 to 54: get_database_path. The DATABASE_URL environment value is
an optional string (absent when the variable is unset). -/
def get_database_path (databaseUrl : Option String)
    (fileExists : String → Bool) (scriptDir : String) : String :=
  match databaseUrl with
  | some dbUrl => resolveDbUrl dbUrl fileExists scriptDir
  | none => probeFallback fileExists scriptDir

/-! ## Data model: the tables touched by the handlers under verification -/

/-- A row of token_tracking_credit_group. -/
structure CreditGroup where
  id : String
  name : String
  max_credit : Int
  description : String
deriving DecidableEq, Repr

/-- A row of token_tracking_credit_group_user. The table has no independent
identifier column, only the two foreign keys. -/
structure CreditGroupUser where
  user_id : String
  credit_group_id : String
deriving DecidableEq, Repr

/-- A row of token_tracking_base_settings. -/
structure BaseSetting where
  setting_key : String
  setting_value : String
  description : String
deriving DecidableEq, Repr

/-- The relevant slice of the SQLite database state. -/
structure DB where
  groups : List CreditGroup
  assignments : List CreditGroupUser
  settings : List BaseSetting
deriving DecidableEq, Repr

/-! ## Mutator (execute_query, lines 198 to 211) -/

/-- Outcome of running one SQL statement against a database state. An error
carries the uncommitted intermediate state, which a rollback discards. -/
inductive QueryResult where
  | ok (db : DB) (rows : Nat)
  | error (msg : String) (uncommittedDb : DB)
deriving DecidableEq, Repr

/-- What execute_query leaves behind: the connection state, the value
returned to the caller (None on error), and the operator-visible error
text shown by st.error, when any. -/
structure ExecResult where
  db : DB
  rowcount : Option Nat
  surfacedError : Option String
deriving DecidableEq, Repr

/-- Lines 198 to 211: execute_query. On success the statement is committed
and the cursor rowcount returned; on any exception the transaction is
rolled back (the uncommitted state is discarded, the connection keeps the
pre-call state), the error is surfaced, and None is returned. -/
def execute_query (conn : DB) (q : DB → QueryResult) : ExecResult :=
  match q conn with
  | .ok db2 n => ⟨db2, some n, none⟩
  | .error msg _ => ⟨conn, none, some ("Error executing query: " ++ msg)⟩

/-- Line 516: DELETE FROM token_tracking_credit_group_user WHERE
credit_group_id = ?. -/
def deleteAssignmentsByGroupQuery (gid : String) : DB → QueryResult :=
  fun db =>
    .ok { db with
          assignments := db.assignments.filter
            (fun a => !(a.credit_group_id == gid)) }
      (db.assignments.countP (fun a => a.credit_group_id == gid))

/-- Lines 522 to 524: DELETE FROM token_tracking_credit_group WHERE id = ?. -/
def deleteGroupByIdQuery (gid : String) : DB → QueryResult :=
  fun db =>
    .ok { db with groups := db.groups.filter (fun g => !(g.id == gid)) }
      (db.groups.countP (fun g => g.id == gid))

/-- Line 968: UPDATE token_tracking_base_settings SET setting_value = ?,
description = ? WHERE setting_key = ?. -/
def updateBaseSettingQuery (key value desc : String) : DB → QueryResult :=
  fun db =>
    .ok { db with
          settings := db.settings.map (fun s =>
            if s.setting_key == key then
              { s with setting_value := value, description := desc }
            else s) }
      (db.settings.countP (fun s => s.setting_key == key))

/-- Line 1023: INSERT INTO token_tracking_base_settings (setting_key,
setting_value, description) VALUES (?, ?, ?). -/
def insertBaseSettingQuery (key value desc : String) : DB → QueryResult :=
  fun db => .ok { db with settings := db.settings ++ [⟨key, value, desc⟩] } 1

/-- The operator-visible outcome of a button handler. -/
inductive HandlerOutcome where
  | success (msg : String)
  | warning (msg : String)
  | errorMsg (msg : String)
  | silent
deriving DecidableEq, Repr

/-! ## Credit Groups delete handler (lines 508 to 541) -/

/-- Lines 508 to 541: the cascade delete button. First all assignment rows
of the group are deleted, then the group row; the success, warning or
silent outcome follows the branch structure on the second rowcount, with
the assignment count defaulting to 0 when the first call returned None. -/
def delete_group_handler (conn : DB) (gid : String) : DB × HandlerOutcome :=
  let r1 := execute_query conn (deleteAssignmentsByGroupQuery gid)
  let r2 := execute_query r1.db (deleteGroupByIdQuery gid)
  let outcome :=
    match r2.rowcount with
    | some n =>
      if n > 0 then
        let assignmentsCount := r1.rowcount.getD 0
        if assignmentsCount > 0 then
          HandlerOutcome.success
            ("Group deleted successfully. Removed " ++
              toString assignmentsCount ++ " user assignment(s).")
        else HandlerOutcome.success "Group deleted successfully."
      else HandlerOutcome.warning "No rows deleted. Group may not exist."
    | none => HandlerOutcome.silent
  (r2.db, outcome)

/-! ## Base Settings update handler (lines 967 to 977) -/

/-- Lines 967 to 977: the Update button of a base setting. -/
def update_setting_handler (conn : DB) (key value desc : String) :
    DB × HandlerOutcome :=
  let r := execute_query conn (updateBaseSettingQuery key value desc)
  let outcome :=
    match r.rowcount with
    | some n =>
      if n > 0 then
        HandlerOutcome.success ("Setting " ++ key ++ " updated successfully")
      else HandlerOutcome.warning "No rows updated."
    | none => HandlerOutcome.silent
  (r.db, outcome)

/-! ## Add New Setting handler (lines 1012 to 1031) -/

/-- Shape of the WHERE clause built on line 1018 by interpolating the
submitted key between single quotes: setting_key = <quote>key<quote>.
SQLite lexes the fragment after the equals sign as a string literal in
which two adjacent quotes stand for one quote character, so the fragment is
one of: a single literal covering the whole text, giving an exact
comparison against the unescaped content (which differs from the submitted
key when the key contains doubled quotes); an unterminated literal,
malformed SQL on which the read raises; or a closed literal followed by
trailing text whose validity and meaning depend on the rest of the SQL
grammar. -/
inductive CheckQueryShape where
  | exactMatch (literalKey : String)
  | unterminated
  | trailingSql (literalKey rest : String)
deriving DecidableEq, Repr

/-- Lexes one SQLite string literal from the character stream that follows
the opening quote, accumulating the unescaped content: returns the content
and the characters after the closing quote, or none when the literal never
terminates. -/
def sqlScanLiteral : List Char → List Char → Option (List Char × List Char)
  | [], _ => none
  | c :: rest, acc =>
    if c = squote then
      match rest with
      | c2 :: rest2 =>
        if c2 = squote then sqlScanLiteral rest2 (acc ++ [squote])
        else some (acc, rest)
      | [] => some (acc, [])
    else sqlScanLiteral rest (acc ++ [c])

/-- The shape of the interpolated WHERE clause for a submitted key: the
lexer is run on the key followed by the closing quote the source appends. -/
def scanInterpolatedKey (key : String) : CheckQueryShape :=
  match sqlScanLiteral (key.data ++ [squote]) [] with
  | none => .unterminated
  | some (content, []) => .exactMatch (String.mk content)
  | some (content, rest) => .trailingSql (String.mk content) (String.mk rest)

/-- Lines 1014 to 1019: the existence check reads the settings table through
get_table_data with the interpolated where clause. An exact-match shape
returns the rows whose setting_key equals the unescaped literal, capped by
the default row limit 100 of get_table_data; an unterminated literal is
malformed SQL, the read raises, and get_table_data returns None (lines 193
to 195); a closed literal with trailing text behaves according to the rest
of the SQL grammar, which this model keeps abstract as the parameter
trailingSem (such a clause may be well formed, as for an injected OR
disjunct, or malformed). -/
def getSettingsByKey
    (trailingSem : String → String → DB → Option (List BaseSetting))
    (conn : DB) (key : String) : Option (List BaseSetting) :=
  match scanInterpolatedKey key with
  | .exactMatch lit =>
    some ((conn.settings.filter (fun s => s.setting_key == lit)).take 100)
  | .unterminated => none
  | .trailingSql lit rest => trailingSem lit rest conn

/-- Lines 1012 to 1031: the Create Setting button. The INSERT runs unless
the check returned a nonempty row list; in particular it also runs when the
check itself failed and returned None. -/
def add_setting_handler
    (trailingSem : String → String → DB → Option (List BaseSetting))
    (conn : DB) (new_key new_value new_desc : String) :
    DB × HandlerOutcome :=
  if new_key ≠ "" then
    let check := getSettingsByKey trailingSem conn new_key
    if (match check with
        | some rows => !rows.isEmpty
        | none => false) then
      (conn, .errorMsg ("Setting " ++ new_key ++ " already exists."))
    else
      let r := execute_query conn (insertBaseSettingQuery new_key new_value new_desc)
      match r.rowcount with
      | some _ => (r.db, .success ("Setting " ++ new_key ++ " created successfully"))
      | none => (r.db, .silent)
  else (conn, .errorMsg "Setting Key is required")

/-! ## External Command Bridge (run_token_tracking_command, lines 296 to 319) -/

/-- Observable behavior of the child process started by subprocess.run:
a completed run with captured stdout, stderr and return code; expiry of the
30 second timeout; or any other exception raised inside the wrapper, with
its message string (which Python renders empty for a bare exception). -/
inductive SubprocessBehavior where
  | completed (stdout stderr : String) (returncode : Int)
  | timedOut
  | exn (msg : String)
deriving DecidableEq, Repr

/-- Lines 296 to 319: run_token_tracking_command. Every branch returns a
triple, so the wrapper never propagates an exception to its caller. -/
def run_token_tracking_command (behavior : SubprocessBehavior) :
    String × String × Int :=
  match behavior with
  | .completed out err code => (out, err, code)
  | .timedOut => ("", "Command timed out", 1)
  | .exn msg => ("", msg, 1)

/-- Lines 299 to 301: the environment injected into the child process binds
DATABASE_URL to the string sqlite:/// followed by the resolved database
path. -/
def child_database_url (databaseUrl : Option String)
    (fileExists : String → Bool) (scriptDir : String) : String :=
  "sqlite:///" ++ get_database_path databaseUrl fileExists scriptDir

/-! ## Connection Provider (get_db_connection, lines 100 to 139) -/

/-- The two session-state fields used for retry tracking (lines 100 to
104). Time is measured in whole seconds. -/
structure SessionState where
  db_retry_count : Nat
  db_last_check : Nat
deriving DecidableEq, Repr

/-- The part of the filesystem the connection step observes and changes:
whether the database file exists and whether it contains any table. -/
structure DbFileState where
  dbFileExists : Bool
  hasTables : Bool
deriving DecidableEq, Repr

/-- What one invocation of get_db_connection reports. -/
inductive ConnOutcome where
  | notReadyWaiting (attempt : Nat)
  | permanentFailure
  | notReadyEmpty
  | connected
deriving DecidableEq, Repr

/-- Line 106. -/
def max_retries : Nat := 15

/-- Line 107, in seconds. -/
def retry_delay : Nat := 2

/-- Lines 109 to 174: one invocation of get_db_connection within a
presentation refresh cycle at time now. When the file is missing and the
rate-limit window has passed, the retry branch runs (lines 115 to 136);
when the file is missing but the window has not passed, control falls
through to line 139, which resets the retry counter, and then to
sqlite3.connect on line 143, which creates an empty database file, so the
empty-database branch (lines 150 to 164) reports the file as having no
tables. When the file exists, the counter is reset and the connection
either succeeds or reports the empty-database state. -/
def get_db_connection_step (s : SessionState) (fs : DbFileState)
    (now : Nat) : SessionState × DbFileState × ConnOutcome :=
  if !fs.dbFileExists then
    if retry_delay ≤ now - s.db_last_check then
      if s.db_retry_count < max_retries then
        ({ db_retry_count := s.db_retry_count + 1, db_last_check := now }, fs,
          .notReadyWaiting (s.db_retry_count + 1))
      else ({ s with db_last_check := now }, fs, .permanentFailure)
    else
      ({ db_retry_count := 0, db_last_check := s.db_last_check },
        { dbFileExists := true, hasTables := false }, .notReadyEmpty)
  else
    let s2 : SessionState := { s with db_retry_count := 0 }
    if fs.hasTables then (s2, fs, .connected) else (s2, fs, .notReadyEmpty)

/-- Runs a sequence of refresh cycles at the given times, returning the
final session state, the final filesystem state and the reported outcomes
in order. -/
def run_refresh_cycles (s : SessionState) (fs : DbFileState) :
    List Nat → SessionState × DbFileState × List ConnOutcome
  | [] => (s, fs, [])
  | t :: ts =>
    let r := get_db_connection_step s fs t
    let rest := run_refresh_cycles r.1 r.2.1 ts
    (rest.1, rest.2.1, r.2.2 :: rest.2.2)

/-- A refresh interleaving with the database file absent throughout: 15
refresh cycles spaced 2 seconds apart, then one refresh 1 second after the
previous, then further refreshes. -/
def c3FailingTrace : List Nat :=
  [2, 4, 6, 8, 10, 12, 14, 16, 18, 20, 22, 24, 26, 28, 30, 31, 33, 35]

/-- The connection provider run on the failing interleaving from the fresh
session, the database file initially absent and never created externally. -/
def c3Run : SessionState × DbFileState × List ConnOutcome :=
  run_refresh_cycles ⟨0, 0⟩ ⟨false, false⟩ c3FailingTrace

/-! ## Model manifest validation (Save Changes handler, lines 823 to 871) -/

/-- A parsed JSON value, the result of json.loads on the editor content. -/
inductive Json where
  | null
  | bool (b : Bool)
  | num (n : Int)
  | str (s : String)
  | arr (items : List Json)
  | obj (fields : List (String × Json))
deriving Repr

/-- Lines 833 to 841: the required fields of a model-pricing entry. -/
def required_fields : List String :=
  ["provider", "id", "name", "input_cost_credits", "per_input_tokens",
    "output_cost_credits", "per_output_tokens"]

/-- Membership of a key among the fields of a JSON object, the embedding of
the Python test: field not in model. -/
def objHasField (fields : List (String × Json)) (f : String) : Bool :=
  fields.any (fun kv => kv.1 == f)

/-- Lines 843 to 856: the per-entry checks of the validation loop. An entry
passes when it is an object carrying every required field; the loop sets
valid to False and breaks at the first entry violating either check. -/
def manifestEntryValid : Json → Bool
  | .obj fields => required_fields.all (objHasField fields)
  | _ => false

/-- Lines 823 to 871: the Save Changes button. json.loads is external, so
its result arrives as an optional parsed value (None on a decode error).
The state threaded through is the content of token_parity.json; the write
branch (lines 858 to 871) is modelled with the write succeeding, the
permission-error branch being out of scope of the claims. -/
def save_changes_handler (parsed : Option Json)
    (editedContent fileContent : String) : String × HandlerOutcome :=
  match parsed with
  | none => (fileContent, .errorMsg "Invalid JSON")
  | some j =>
    match j with
    | .arr items =>
      if items.all manifestEntryValid then
        (editedContent, .success "File saved successfully!")
      else (fileContent, .errorMsg "missing required field or non-object entry")
    | _ => (fileContent, .errorMsg "JSON must be an array of model objects")

/-! ## String helper lemmas -/

theorem pyStartsWith_append_self (a p : String) : pyStartsWith (a ++ p) a = true := by
  simp [pyStartsWith, String.data_append, List.isPrefixOf_iff_prefix]

theorem string_append_ne_empty (a p : String) (h : a.data ≠ []) : a ++ p ≠ "" := by
  intro he
  have h2 := congrArg String.data he
  rw [String.data_append] at h2
  have h3 : ("" : String).data = [] := rfl
  rw [h3] at h2
  exact h (List.append_eq_nil.mp h2).1

theorem string_drop_append (a p : String) : (a ++ p).drop a.data.length = p := by
  rw [String.drop_eq, String.data_append, List.drop_left]

theorem pyStartsWith_append_false (a b p : String) (i : Nat)
    (hb : i < b.data.length) (ha : i < a.data.length)
    (hne : ¬ a.data[i]? = b.data[i]?) : pyStartsWith (a ++ p) b = false := by
  rw [pyStartsWith, String.data_append, Bool.eq_false_iff]
  intro hpre
  rw [ List.isPrefixOf_iff_prefix] at hpre
  obtain ⟨t, ht⟩ := hpre
  have h3 := congrArg (fun l => l[i]?) ht
  simp only at h3
  rw [List.getElem?_append_left hb, List.getElem?_append_left ha] at h3
  exact hne h3.symm

theorem sqlite_append_ne_sqlcipher_append (p q : String) :
    ("sqlite:///" ++ p) ≠ ("sqlite+sqlcipher:///" ++ q) := by
  intro h
  have h2 := congrArg String.data h
  rw [String.data_append, String.data_append] at h2
  have h3 := congrArg (fun l => l[6]?) h2
  simp only at h3
  rw [List.getElem?_append_left (by decide), List.getElem?_append_left (by decide)] at h3
  exact absurd h3 (by decide)

/-! ## List helper lemmas -/

theorem filter_bnot_eq_self {α : Type} (p : α → Bool) (l : List α)
    (h : l.countP p = 0) : l.filter (fun a => !(p a)) = l := by
  rw [List.filter_eq_self]
  intro a ha
  simp [List.countP_eq_zero.mp h a ha]

theorem map_ite_eq_self {α : Type} (p : α → Bool) (f : α → α) (l : List α)
    (h : ∀ a ∈ l, p a = false) : l.map (fun a => if p a then f a else a) = l := by
  induction l with
  | nil => rfl
  | cons x xs ih =>
    have hx := h x (List.mem_cons_self x xs)
    simp [hx, ih (fun a ha => h a (List.mem_cons_of_mem _ ha))]

/-! ## Interpolated-clause lexer lemmas -/

theorem sqlScanLiteral_cons_ne (c : Char) (l acc : List Char)
    (hc : ¬ c = squote) :
    sqlScanLiteral (c :: l) acc = sqlScanLiteral l (acc ++ [c]) := by
  conv_lhs => unfold sqlScanLiteral
  rw [if_neg hc]

theorem sqlScanLiteral_sentinel (acc : List Char) :
    sqlScanLiteral [squote] acc = some (acc, []) := by
  conv_lhs => unfold sqlScanLiteral
  rw [if_pos rfl]

theorem sqlScanLiteral_no_quote (l : List Char) (acc : List Char)
    (h : ∀ c ∈ l, c ≠ squote) :
    sqlScanLiteral (l ++ [squote]) acc = some (acc ++ l, []) := by
  induction l generalizing acc with
  | nil => simpa using sqlScanLiteral_sentinel acc
  | cons c cs ih =>
    rw [List.cons_append,
      sqlScanLiteral_cons_ne c _ acc (h c (List.mem_cons_self c cs)),
      ih (acc ++ [c]) (fun x hx => h x (List.mem_cons_of_mem _ hx))]
    simp

theorem scanInterpolatedKey_quote_free (key : String)
    (h : pyContainsChar key squote = false) :
    scanInterpolatedKey key = .exactMatch key := by
  have hall : ∀ c ∈ key.data, c ≠ squote := by
    intro c hc he
    subst he
    rw [pyContainsChar, Bool.eq_false_iff] at h
    exact h (List.elem_iff.mpr hc)
  rw [scanInterpolatedKey, sqlScanLiteral_no_quote _ _ hall]
  simp

/-! ## Claim theorems -/

/-- C6: database location resolution maps sqlite:///<path> and
sqlite+sqlcipher:///<path> to the path with the scheme prefix stripped and
a leading slash ensured (in particular sqlite:///a/b.db resolves to /a/b.db
and sqlite+sqlcipher:///x/y.db resolves to /x/y.db), and any other value
falls back to the fixed ordered probe list. -/
theorem database_path_resolution_spec :
    (∀ fe sd, get_database_path (some "sqlite:///a/b.db") fe sd = "/a/b.db")
    ∧ (∀ fe sd, get_database_path (some "sqlite+sqlcipher:///x/y.db") fe sd = "/x/y.db")
    ∧ (∀ p fe sd, get_database_path (some ("sqlite:///" ++ p)) fe sd
        = if pyStartsWith p "/" then p else "/" ++ p)
    ∧ (∀ p fe sd, get_database_path (some ("sqlite+sqlcipher:///" ++ p)) fe sd
        = if pyStartsWith p "/" then p else "/" ++ p)
    ∧ (∀ url fe sd, pyStartsWith url "sqlite:///" = false →
        pyStartsWith url "sqlite+sqlcipher:///" = false →
        get_database_path (some url) fe sd = probeFallback fe sd)
    ∧ (∀ fe sd, get_database_path none fe sd = probeFallback fe sd) := by
  refine ⟨?_, ?_, ?_, ?_, ?_, ?_⟩
  · intro fe sd
    simp only [get_database_path, resolveDbUrl]
    rw [if_neg (by decide), if_pos (by decide)]
    decide
  · intro fe sd
    simp only [get_database_path, resolveDbUrl]
    rw [if_neg (by decide), if_neg (by decide), if_pos (by decide)]
    decide
  · intro p fe sd
    have hne : ("sqlite:///" ++ p) ≠ "" := string_append_ne_empty _ _ (by decide)
    have hpre : pyStartsWith ("sqlite:///" ++ p) "sqlite:///" = true :=
      pyStartsWith_append_self _ _
    have hdrop : ("sqlite:///" ++ p).drop 10 = p := by
      rw [(by decide : (10 : Nat) = ("sqlite:///" : String).data.length)]
      exact string_drop_append _ _
    simp only [get_database_path, resolveDbUrl]
    rw [if_neg hne, if_pos hpre, hdrop]
    simp only [ensureLeadingSlash]
  · intro p fe sd
    have hne : ("sqlite+sqlcipher:///" ++ p) ≠ "" :=
      string_append_ne_empty _ _ (by decide)
    have hfalse : pyStartsWith ("sqlite+sqlcipher:///" ++ p) "sqlite:///" = false :=
      pyStartsWith_append_false _ _ _ 6 (by decide) (by decide) (by decide)
    have hpre : pyStartsWith ("sqlite+sqlcipher:///" ++ p) "sqlite+sqlcipher:///" = true :=
      pyStartsWith_append_self _ _
    have hdrop : ("sqlite+sqlcipher:///" ++ p).drop 20 = p := by
      rw [(by decide : (20 : Nat) = ("sqlite+sqlcipher:///" : String).data.length)]
      exact string_drop_append _ _
    simp only [get_database_path, resolveDbUrl]
    rw [if_neg hne, if_neg (by simp [hfalse]), if_pos hpre, hdrop]
    simp only [ensureLeadingSlash]
  · intro url fe sd h1 h2
    by_cases hurl : url = ""
    · subst hurl
      simp [get_database_path, resolveDbUrl]
    · simp only [get_database_path, resolveDbUrl]
      rw [if_neg hurl, if_neg (by simp [h1]), if_neg (by simp [h2])]
  · intro fe sd
    rfl

/-- C6 witness: the theorem applied at concrete inputs, the probe branch
hypotheses discharged by evaluation. -/
theorem database_path_resolution_spec_witness :
    get_database_path (some "sqlite:///a/b.db") (fun _ => false) "/srv" = "/a/b.db"
    ∧ get_database_path (some "postgres://host/d") (fun _ => false) "/srv"
        = probeFallback (fun _ => false) "/srv" :=
  ⟨database_path_resolution_spec.1 _ _,
    database_path_resolution_spec.2.2.2.2.1 "postgres://host/d" _ _
      (by decide) (by decide)⟩

/-- C9: the DATABASE_URL injected into the child process environment is the
string sqlite:/// followed by the resolved database path, and it never
carries the sqlite+sqlcipher scheme, whatever connection string the
operator configured. -/
theorem child_database_url_never_sqlcipher :
    ∀ (databaseUrl : Option String) (fe : String → Bool) (sd : String),
      child_database_url databaseUrl fe sd
          = "sqlite:///" ++ get_database_path databaseUrl fe sd
      ∧ pyStartsWith (child_database_url databaseUrl fe sd)
          "sqlite+sqlcipher:///" = false
      ∧ ∀ q : String,
          child_database_url databaseUrl fe sd ≠ "sqlite+sqlcipher:///" ++ q := by
  intro u fe sd
  refine ⟨rfl, ?_, ?_⟩
  · exact pyStartsWith_append_false _ _ _ 6 (by decide) (by decide) (by decide)
  · intro q
    exact sqlite_append_ne_sqlcipher_append _ _

/-- C9 witness: even when the operator configured the sqlcipher scheme, the
child never receives a sqlcipher connection string. -/
theorem child_database_url_never_sqlcipher_witness :
    child_database_url (some "sqlite+sqlcipher:///x/y.db") (fun _ => false) "/srv"
      ≠ "sqlite+sqlcipher:///" ++ "x/y.db" :=
  (child_database_url_never_sqlcipher
    (some "sqlite+sqlcipher:///x/y.db") (fun _ => false) "/srv").2.2 "x/y.db"

/-- C2 counterexample: the timeout outcome and an ordinary run that exited
with the non-zero code 1 printing the same stderr produce identical return
values, although they are distinct behaviors, so the caller cannot
distinguish a timeout from an ordinary non-zero exit by the returned
value. -/
theorem timeout_triple_collision_counterexample :
    run_token_tracking_command SubprocessBehavior.timedOut
      = run_token_tracking_command
          (SubprocessBehavior.completed "" "Command timed out" 1)
    ∧ SubprocessBehavior.timedOut
        ≠ SubprocessBehavior.completed "" "Command timed out" 1
    ∧ (1 : Int) ≠ 0 :=
  ⟨rfl, by decide, by decide⟩

/-- C2 (amended): stdout, stderr and exit status of a completed command are
captured; a timeout is reported as the fixed triple of empty stdout, the
stderr text Command timed out, and exit code 1, which coincides with the
value returned for an ordinary run exiting 1 with that stderr, so the
timeout is marked only by the stderr text and not by a failure kind the
caller can always distinguish from a non-zero exit. -/
theorem run_token_tracking_command_capture_spec :
    ∀ (out err : String) (code : Int),
      run_token_tracking_command (.completed out err code) = (out, err, code)
      ∧ run_token_tracking_command .timedOut = ("", "Command timed out", 1)
      ∧ run_token_tracking_command .timedOut
          = run_token_tracking_command
              (.completed "" "Command timed out" 1) :=
  fun _ _ _ => ⟨rfl, rfl, rfl⟩

/-- C8 counterexample: an internal exception whose message renders empty
makes the wrapper return an empty stderr, against the claim that the stderr
is always non-empty on failure. -/
theorem empty_exception_message_counterexample :
    run_token_tracking_command (SubprocessBehavior.exn "") = ("", "", 1)
    ∧ (run_token_tracking_command (SubprocessBehavior.exn "")).2.1 = "" :=
  ⟨rfl, rfl⟩

/-- C8 (amended): the wrapper is total and always returns a triple; every
non-completed behavior returns code 1; a timeout returns empty stdout and
the fixed non-empty stderr; an internal exception returns empty stdout and
the exception message, whose emptiness the stderr mirrors exactly. -/
theorem run_token_tracking_command_total_spec :
    ∀ b : SubprocessBehavior,
      ((run_token_tracking_command b).2.2 = 1
        ∨ ∃ out err code, b = .completed out err code)
      ∧ (b = .timedOut →
          run_token_tracking_command b = ("", "Command timed out", 1)
          ∧ ("Command timed out" : String) ≠ "")
      ∧ (∀ msg, b = .exn msg →
          run_token_tracking_command b = ("", msg, 1)
          ∧ ((run_token_tracking_command b).2.1 = "" ↔ msg = "")) := by
  intro b
  refine ⟨?_, ?_, ?_⟩
  · cases b with
    | completed o e c => exact Or.inr ⟨o, e, c, rfl⟩
    | timedOut => exact Or.inl rfl
    | exn m => exact Or.inl rfl
  · intro hb
    subst hb
    exact ⟨rfl, by decide⟩
  · intro m hb
    subst hb
    exact ⟨rfl, Iff.rfl⟩

/-- C8 witness: the amended theorem applied at the timeout behavior. -/
theorem run_token_tracking_command_total_spec_witness :
    run_token_tracking_command .timedOut = ("", "Command timed out", 1)
    ∧ ("Command timed out" : String) ≠ "" :=
  (run_token_tracking_command_total_spec .timedOut).2.1 rfl

/-- C4: execute_query commits and returns the affected-row count on
success; on any execution error it rolls back, leaving the connection state
unchanged (the uncommitted state is discarded, whatever it was), returns
None, and surfaces the error text to the operator. -/
theorem execute_query_rollback_spec :
    ∀ (conn : DB) (q : DB → QueryResult),
      (∀ msg udb, q conn = .error msg udb →
        execute_query conn q
          = ⟨conn, none, some ("Error executing query: " ++ msg)⟩)
      ∧ (∀ db2 n, q conn = .ok db2 n →
        execute_query conn q = ⟨db2, some n, none⟩) := by
  intro conn q
  constructor
  · intro msg udb h
    simp [execute_query, h]
  · intro db2 n h
    simp [execute_query, h]

/-- C4 witness: a failing statement whose uncommitted state differs from
the connection state is rolled back without partial effect, and a
succeeding insert returns its row count. -/
theorem execute_query_rollback_spec_witness :
    execute_query (DB.mk [] [] [])
        (fun _ => .error "boom" (DB.mk [] [] [BaseSetting.mk "k" "v" "d"]))
      = ⟨DB.mk [] [] [], none, some "Error executing query: boom"⟩
    ∧ execute_query (DB.mk [] [] [])
        (insertBaseSettingQuery "k" "v" "d")
      = ⟨DB.mk [] [] [BaseSetting.mk "k" "v" "d"], some 1, none⟩ := by
  constructor
  · rw [(execute_query_rollback_spec (DB.mk [] [] []) _).1 "boom"
      (DB.mk [] [] [BaseSetting.mk "k" "v" "d"]) rfl]
    decide
  · rw [(execute_query_rollback_spec (DB.mk [] [] [])
      (insertBaseSettingQuery "k" "v" "d")).2
      (DB.mk [] [] [BaseSetting.mk "k" "v" "d"]) 1 rfl]

/-- C5: a mutation matching zero rows is a normal non-error outcome: the
base-setting update with an unknown key returns the affected-row count 0
with no surfaced error and the handler reports the no-match warning, while
a failing statement returns None with a surfaced error, a value the caller
can distinguish from Some 0. -/
theorem zero_rows_distinct_from_error :
    ∀ (db : DB) (key value desc : String) (q : DB → QueryResult)
      (msg : String) (udb : DB),
      db.settings.countP (fun s => s.setting_key == key) = 0 →
      q db = .error msg udb →
      update_setting_handler db key value desc
          = (db, .warning "No rows updated.")
      ∧ (execute_query db (updateBaseSettingQuery key value desc)).rowcount
          = some 0
      ∧ (execute_query db (updateBaseSettingQuery key value desc)).surfacedError
          = none
      ∧ (execute_query db q).rowcount = none
      ∧ (execute_query db q).surfacedError
          = some ("Error executing query: " ++ msg)
      ∧ (execute_query db (updateBaseSettingQuery key value desc)).rowcount
          ≠ (execute_query db q).rowcount := by
  intro db key value desc q msg udb h0 herr
  have hmap : db.settings.map (fun s =>
      if s.setting_key == key then
        { s with setting_value := value, description := desc }
      else s) = db.settings :=
    map_ite_eq_self _ _ _ (fun a ha => by
      simpa using List.countP_eq_zero.mp h0 a ha)
  have hupdate : execute_query db (updateBaseSettingQuery key value desc)
      = ⟨db, some 0, none⟩ := by
    simp only [execute_query, updateBaseSettingQuery, h0, hmap]
  have herr2 : execute_query db q
      = ⟨db, none, some ("Error executing query: " ++ msg)⟩ := by
    simp [execute_query, herr]
  refine ⟨?_, ?_, ?_, ?_, ?_, ?_⟩
  · simp only [update_setting_handler, hupdate]
    simp
  · rw [hupdate]
  · rw [hupdate]
  · rw [herr2]
  · rw [herr2]
  · rw [hupdate, herr2]
    simp

/-- C5 witness: the theorem applied to a database holding one setting with
a different key, an unknown key, and a failing statement. -/
theorem zero_rows_distinct_from_error_witness :
    update_setting_handler (DB.mk [] [] [BaseSetting.mk "a" "1" "x"])
        "unknown" "v" "d"
      = (DB.mk [] [] [BaseSetting.mk "a" "1" "x"], .warning "No rows updated.")
    ∧ (execute_query (DB.mk [] [] [BaseSetting.mk "a" "1" "x"])
        (fun db => .error "syntax error" db)).rowcount = none :=
  ⟨(zero_rows_distinct_from_error (DB.mk [] [] [BaseSetting.mk "a" "1" "x"])
      "unknown" "v" "d" (fun db => .error "syntax error" db)
      "syntax error" (DB.mk [] [] [BaseSetting.mk "a" "1" "x"])
      (by decide) rfl).1,
    (zero_rows_distinct_from_error (DB.mk [] [] [BaseSetting.mk "a" "1" "x"])
      "unknown" "v" "d" (fun db => .error "syntax error" db)
      "syntax error" (DB.mk [] [] [BaseSetting.mk "a" "1" "x"])
      (by decide) rfl).2.2.2.1⟩

theorem delete_group_handler_state (db : DB) (gid : String) :
    (delete_group_handler db gid).1
      = { groups := db.groups.filter (fun g => !(g.id == gid)),
          assignments := db.assignments.filter
            (fun a => !(a.credit_group_id == gid)),
          settings := db.settings } := by
  simp only [delete_group_handler, execute_query, deleteAssignmentsByGroupQuery,
    deleteGroupByIdQuery]

theorem delete_group_handler_outcome (db : DB) (gid : String) :
    (delete_group_handler db gid).2
      = (if db.groups.countP (fun g => g.id == gid) > 0 then
          if db.assignments.countP (fun a => a.credit_group_id == gid) > 0 then
            HandlerOutcome.success
              ("Group deleted successfully. Removed " ++
                toString (db.assignments.countP
                  (fun a => a.credit_group_id == gid)) ++
                " user assignment(s).")
          else HandlerOutcome.success "Group deleted successfully."
        else HandlerOutcome.warning "No rows deleted. Group may not exist.") := by
  simp only [delete_group_handler, execute_query, deleteAssignmentsByGroupQuery,
    deleteGroupByIdQuery, Option.getD_some]

/-- C1: the cascade delete removes every assignment row of the group and
the group rows with the given id, leaving settings untouched; the first
delete reports exactly the number M of matching assignment rows; for an id
matched by no group and no assignment both deletes affect zero rows, the
database is unchanged, and a warning rather than a failure is reported;
when the group exists the handler reports success. -/
theorem delete_group_cascade_spec :
    ∀ (db : DB) (gid : String),
      (delete_group_handler db gid).1.assignments
          = db.assignments.filter (fun a => !(a.credit_group_id == gid))
      ∧ (delete_group_handler db gid).1.groups
          = db.groups.filter (fun g => !(g.id == gid))
      ∧ (delete_group_handler db gid).1.settings = db.settings
      ∧ (execute_query db (deleteAssignmentsByGroupQuery gid)).rowcount
          = some (db.assignments.countP (fun a => a.credit_group_id == gid))
      ∧ (execute_query
            (execute_query db (deleteAssignmentsByGroupQuery gid)).db
            (deleteGroupByIdQuery gid)).rowcount
          = some (db.groups.countP (fun g => g.id == gid))
      ∧ (db.assignments.countP (fun a => a.credit_group_id == gid) = 0 →
          db.groups.countP (fun g => g.id == gid) = 0 →
          (delete_group_handler db gid).1 = db
          ∧ (delete_group_handler db gid).2
              = .warning "No rows deleted. Group may not exist.")
      ∧ (0 < db.groups.countP (fun g => g.id == gid) →
          ∃ m, (delete_group_handler db gid).2 = .success m) := by
  intro db gid
  have hstate := delete_group_handler_state db gid
  have houtcome := delete_group_handler_outcome db gid
  refine ⟨?_, ?_, ?_, ?_, ?_, ?_, ?_⟩
  · rw [hstate]
  · rw [hstate]
  · rw [hstate]
  · simp only [execute_query, deleteAssignmentsByGroupQuery]
  · simp only [execute_query, deleteAssignmentsByGroupQuery, deleteGroupByIdQuery]
  · intro ha hg
    constructor
    · rw [hstate, filter_bnot_eq_self _ _ ha, filter_bnot_eq_self _ _ hg]
    · rw [houtcome, hg]
      simp
  · intro hg
    rw [houtcome, if_pos hg]
    by_cases ha : db.assignments.countP (fun a => a.credit_group_id == gid) > 0
    · rw [if_pos ha]
      exact ⟨_, rfl⟩
    · rw [if_neg ha]
      exact ⟨_, rfl⟩

/-- C1 witness: the theorem applied to a database with one group carrying
two assignments, at the existing id and at a non-existent id. -/
theorem delete_group_cascade_spec_witness :
    ((delete_group_handler
        (DB.mk [CreditGroup.mk "g1" "A" 10 "d"]
          [CreditGroupUser.mk "u1" "g1", CreditGroupUser.mk "u2" "g1",
            CreditGroupUser.mk "u3" "g2"] [])
        "nope").1
      = DB.mk [CreditGroup.mk "g1" "A" 10 "d"]
          [CreditGroupUser.mk "u1" "g1", CreditGroupUser.mk "u2" "g1",
            CreditGroupUser.mk "u3" "g2"] [])
    ∧ ((delete_group_handler
        (DB.mk [CreditGroup.mk "g1" "A" 10 "d"]
          [CreditGroupUser.mk "u1" "g1", CreditGroupUser.mk "u2" "g1",
            CreditGroupUser.mk "u3" "g2"] [])
        "nope").2 = .warning "No rows deleted. Group may not exist.")
    ∧ ∃ m, (delete_group_handler
        (DB.mk [CreditGroup.mk "g1" "A" 10 "d"]
          [CreditGroupUser.mk "u1" "g1", CreditGroupUser.mk "u2" "g1",
            CreditGroupUser.mk "u3" "g2"] [])
        "g1").2 = .success m :=
  ⟨((delete_group_cascade_spec
      (DB.mk [CreditGroup.mk "g1" "A" 10 "d"]
        [CreditGroupUser.mk "u1" "g1", CreditGroupUser.mk "u2" "g1",
          CreditGroupUser.mk "u3" "g2"] [])
      "nope").2.2.2.2.2.1 (by decide) (by decide)).1,
    ((delete_group_cascade_spec
      (DB.mk [CreditGroup.mk "g1" "A" 10 "d"]
        [CreditGroupUser.mk "u1" "g1", CreditGroupUser.mk "u2" "g1",
          CreditGroupUser.mk "u3" "g2"] [])
      "nope").2.2.2.2.2.1 (by decide) (by decide)).2,
    (delete_group_cascade_spec
      (DB.mk [CreditGroup.mk "g1" "A" 10 "d"]
        [CreditGroupUser.mk "u1" "g1", CreditGroupUser.mk "u2" "g1",
          CreditGroupUser.mk "u3" "g2"] [])
      "g1").2.2.2.2.2.2 (by decide)⟩

/-- C3 (failing input): on an interleaving where one refresh arrives within
the 2 second window after the 15th attempt, the fall-through path resets
the exhausted retry counter to 0 and lets the connect call create an empty
database file, after which every later cycle reports the empty-database
not-ready state: the trace reports 18 not-ready states, never a permanent
failure and never a connection, and ends with a full retry budget again;
the final conjunct isolates the resetting step itself. -/
theorem db_retry_reset_unbounded_not_ready :
    c3Run.2.2.length = 18
    ∧ ConnOutcome.permanentFailure ∉ c3Run.2.2
    ∧ ConnOutcome.connected ∉ c3Run.2.2
    ∧ c3Run.1.db_retry_count = 0
    ∧ get_db_connection_step ⟨15, 30⟩ ⟨false, false⟩ 31
        = (⟨0, 30⟩, ⟨true, false⟩, .notReadyEmpty) := by
  decide

theorem manifestEntryValid_eq_false_of (m : Json)
    (h : (∀ fields, m ≠ Json.obj fields)
        ∨ ∃ fields f, m = Json.obj fields ∧ f ∈ required_fields
            ∧ objHasField fields f = false) :
    manifestEntryValid m = false := by
  cases m with
  | null => rfl
  | bool b => rfl
  | num n => rfl
  | str s => rfl
  | arr items => rfl
  | obj fields =>
    rcases h with h | ⟨fs, f, heq, hmem, hfalse⟩
    · exact absurd rfl (h fields)
    · injection heq with h2
      subst h2
      simp only [manifestEntryValid]
      rw [List.all_eq_false]
      exact ⟨f, hmem, by simp [hfalse]⟩

/-- C7: a manifest array holding any entry that is not an object or lacks
one of the required fields is rejected wholesale, leaving the file content
untouched and reporting no success; a manifest whose entries all carry
every required field is written. -/
theorem manifest_rejected_wholesale :
    ∀ (edited file : String) (items : List Json),
      ((∃ m ∈ items,
          (∀ fields, m ≠ Json.obj fields)
          ∨ ∃ fields f, m = Json.obj fields ∧ f ∈ required_fields
              ∧ objHasField fields f = false) →
        (save_changes_handler (some (Json.arr items)) edited file).1 = file
        ∧ ∀ s, (save_changes_handler (some (Json.arr items)) edited file).2
            ≠ HandlerOutcome.success s)
      ∧ (items.all manifestEntryValid = true →
        save_changes_handler (some (Json.arr items)) edited file
          = (edited, .success "File saved successfully!")) := by
  intro edited file items
  constructor
  · intro hbad
    obtain ⟨m, hm, hinvalid⟩ := hbad
    have hall : items.all manifestEntryValid = false := by
      rw [List.all_eq_false]
      exact ⟨m, hm, by simp [manifestEntryValid_eq_false_of m hinvalid]⟩
    simp only [save_changes_handler, hall]
    constructor
    · simp
    · intro s
      simp
  · intro hall
    simp only [save_changes_handler, hall]
    simp

/-- C7 witness: a one-entry manifest whose entry lacks the field id leaves
the file unchanged. -/
theorem manifest_rejected_wholesale_witness :
    (save_changes_handler
        (some (Json.arr [Json.obj [("provider", Json.str "openai")]]))
        "EDITED" "ORIGINAL").1 = "ORIGINAL" :=
  ((manifest_rejected_wholesale "EDITED" "ORIGINAL"
      [Json.obj [("provider", Json.str "openai")]]).1
    ⟨Json.obj [("provider", Json.str "openai")], List.Mem.head _,
      Or.inr ⟨[("provider", Json.str "openai")], "id", rfl, by decide,
        by decide⟩⟩).1

/-- C10 counterexample: with one stored setting whose key is k followed by
a single quote, submitting that same key interpolates to an unterminated
string literal (the scan conjunct), so the existence check fails and
returns None, the INSERT runs anyway, and the table ends with two rows
carrying that key: the claim that no INSERT is executed when a row with
the submitted key exists is false. The trailing-text parameter is fixed to
a concrete value; it is never consulted on this path, which ends in the
unterminated shape before any trailing text exists. -/
theorem add_setting_quote_bypasses_check :
    scanInterpolatedKey ("k" ++ String.mk [squote]) = .unterminated
    ∧ ((add_setting_handler (fun _ _ _ => none)
        (DB.mk [] [] [BaseSetting.mk ("k" ++ String.mk [squote]) "1" "d"])
        ("k" ++ String.mk [squote]) "2" "e").1.settings.countP
        (fun s => s.setting_key == ("k" ++ String.mk [squote])) = 2)
    ∧ ((add_setting_handler (fun _ _ _ => none)
        (DB.mk [] [] [BaseSetting.mk ("k" ++ String.mk [squote]) "1" "d"])
        ("k" ++ String.mk [squote]) "2" "e").2
      = HandlerOutcome.success
          ("Setting " ++ ("k" ++ String.mk [squote])
            ++ " created successfully")) := by
  refine ⟨by decide, by decide, by decide⟩

/-- C10 (amended): for a submitted key free of single quotes the
interpolated clause is a single exact-match literal, whatever the
trailing-text semantics, and the handler reads the table first, inserts
only when no row with that key exists, reports an already-exists error
otherwise, and thus preserves uniqueness of setting keys; the uniqueness
guarantee does not extend to all keys, as the counterexample key shows. -/
theorem add_setting_preserves_uniqueness_quote_free :
    ∀ (trailingSem : String → String → DB → Option (List BaseSetting))
      (db : DB) (key value desc : String),
      pyContainsChar key squote = false →
      (key ≠ "" →
        db.settings.filter (fun s => s.setting_key == key) ≠ [] →
        add_setting_handler trailingSem db key value desc
          = (db, .errorMsg ("Setting " ++ key ++ " already exists.")))
      ∧ (key ≠ "" →
        db.settings.filter (fun s => s.setting_key == key) = [] →
        add_setting_handler trailingSem db key value desc
          = ({ db with settings := db.settings ++ [⟨key, value, desc⟩] },
              .success ("Setting " ++ key ++ " created successfully")))
      ∧ (db.settings.Pairwise (fun a b => a.setting_key ≠ b.setting_key) →
        (add_setting_handler trailingSem db key value desc).1.settings.Pairwise
          (fun a b => a.setting_key ≠ b.setting_key)) := by
  intro trailingSem db key value desc hq
  have hscan := scanInterpolatedKey_quote_free key hq
  have hexists : key ≠ "" →
      db.settings.filter (fun s => s.setting_key == key) ≠ [] →
      add_setting_handler trailingSem db key value desc
        = (db, .errorMsg ("Setting " ++ key ++ " already exists.")) := by
    intro hk hne
    have h1 : ((db.settings.filter
        (fun s => s.setting_key == key)).take 100).isEmpty = false := by
      rw [Bool.eq_false_iff]
      intro h
      rw [List.isEmpty_iff, List.take_eq_nil_iff] at h
      rcases h with h | h
      · exact absurd h (by decide)
      · exact hne h
    simp [add_setting_handler, getSettingsByKey, hscan, hk, h1]
  have hinsert : key ≠ "" →
      db.settings.filter (fun s => s.setting_key == key) = [] →
      add_setting_handler trailingSem db key value desc
        = ({ db with settings := db.settings ++ [⟨key, value, desc⟩] },
            .success ("Setting " ++ key ++ " created successfully")) := by
    intro hk hfe
    simp [add_setting_handler, getSettingsByKey, hscan, hk, hfe,
      execute_query, insertBaseSettingQuery]
  refine ⟨hexists, hinsert, ?_⟩
  intro hp
  by_cases hk : key = ""
  · subst hk
    simp only [add_setting_handler]
    simp
    exact hp
  · by_cases hfe : db.settings.filter (fun s => s.setting_key == key) = []
    · rw [hinsert hk hfe]
      rw [List.pairwise_append]
      refine ⟨hp, List.pairwise_singleton _ _, ?_⟩
      intro a ha b hb
      simp only [List.mem_singleton] at hb
      subst hb
      have := (List.filter_eq_nil_iff.mp hfe) a ha
      simpa using this
    · rw [hexists hk hfe]
      exact hp

/-- C10 witness: the amended theorem applied to a database holding the key
a and the quote-free submitted key b, which is inserted. -/
theorem add_setting_preserves_uniqueness_quote_free_witness :
    add_setting_handler (fun _ _ _ => none)
        (DB.mk [] [] [BaseSetting.mk "a" "1" "d"]) "b" "2" "e"
      = (DB.mk [] []
          [BaseSetting.mk "a" "1" "d", BaseSetting.mk "b" "2" "e"],
          .success ("Setting " ++ "b" ++ " created successfully")) := by
  rw [((add_setting_preserves_uniqueness_quote_free (fun _ _ _ => none)
      (DB.mk [] [] [BaseSetting.mk "a" "1" "d"]) "b" "2" "e"
      (by decide)).2.1 (by decide) (by decide))]
  decide

end TokenTrackingDashboard
